import Mathlib

/-!
Shallow embedding of the payment-verification and budget-ledger pipeline of the
backend_payment repository.

Four server variants are modelled, each in its own namespace:

* `PureApi`  : src/budget-tracker-pure-api.js (the first server in that file)
* `Part000`  : src/unnamed/part_000 (the AI Budget Tracker API server)
* `Part002`  : src/unnamed/part_002 (the dashboard-serving variant)
* `Render`   : src/razorpay-render-deploy/server.js

Modelling conventions, shared by all variants:

* JavaScript numbers are modelled as rationals.  `Number.prototype.toFixed(2)`
  followed by `parseFloat` is modelled by `round2` (rounding to the nearest
  hundredth, halves up).  NaN is not modelled; request amounts are taken to be
  ordinary numbers.
* JavaScript string fields of request bodies are modelled as `String`, with
  the empty string standing for an absent (undefined) field: in every handler
  modelled here an absent string field and an empty one flow through the same
  falsy checks and string defaults (`x || d`, modelled by `jsOr`).
* The HMAC-SHA256 primitive of the crypto module is an explicit function
  parameter `hmac : String → String → String` (secret, then message); the
  handlers use it only through equality comparisons, exactly as the source
  compares the hex digest against the supplied signature.
* JavaScript objects used as string-keyed maps (`budgetData.users`, ...) are
  modelled as association lists in insertion order (`setKV` / `lookupKV`).
* Timestamp fields (`createdAt`, `lastActive`, `date`), user display
  name/email on the `User` record, the `verified` flag and the `method` tag of
  transactions are omitted: no claim mentions them and no modelled branch
  reads them.
* External I/O (Razorpay calls, file persistence, logging) has no effect on
  the in-memory `budgetData` and is not modelled; each handler is the function
  from the in-memory state and the parsed request to the next state, plus a
  `Bool` describing whether the response was a success/acceptance response.
-/

/-- A recorded transaction, as pushed onto `user.transactions` by the
handlers.  Amounts are in major units (rupees) exactly as stored by the code. -/
structure Transaction where
  id : String
  orderId : String
  amount : ℚ
  category : String
  description : String
  status : String
deriving DecidableEq

/-- A per-user ledger entry (`budgetData.users[userId]`): the running total
and the ordered transaction list. -/
structure User where
  totalSpent : ℚ
  transactions : List Transaction
deriving DecidableEq

/-- The `budgetData.analytics` counters of the variants that keep them. -/
structure Analytics where
  totalUsers : Nat
  totalTransactions : Nat
  totalAmount : ℚ
deriving DecidableEq

/-- JavaScript string defaulting `x || d`: the empty string (standing for an
absent or empty field, both falsy) is replaced by the default. -/
def jsOr (x d : String) : String := if x = "" then d else x

/-- Assignment `obj[k] = v` on a JavaScript object modelled as an association
list: replace the value at an existing key, else append the new key. -/
def setKV {α : Type} : List (String × α) → String → α → List (String × α)
  | [], k, v => [(k, v)]
  | (k', v') :: rest, k, v =>
      if k' = k then (k, v) :: rest else (k', v') :: setKV rest k v

/-- Lookup `obj[k]` on a JavaScript object modelled as an association list. -/
def lookupKV {α : Type} : List (String × α) → String → Option α
  | [], _ => none
  | (k', v) :: rest, k => if k' = k then some v else lookupKV rest k

/-- Model of JavaScript `parseFloat(x.toFixed(2))`: round to the nearest
hundredth, halves rounded up.  Uses the executable `Rat.floor`. -/
def round2 (q : ℚ) : ℚ := ((q * 100 + 1 / 2).floor : ℚ) / 100

/-- Does a transaction count toward `totalSpent` in the spec invariant, i.e.
does it have status `success` or `captured`?  In the modelled code paths every
appended transaction has one of these two statuses. -/
def countsTowardTotal (t : Transaction) : Bool :=
  t.status == "success" || t.status == "captured"

/-- The sum of the amounts of the transactions whose status is in
`{success, captured}`. -/
def spentSum (l : List Transaction) : ℚ :=
  ((l.filter countsTowardTotal).map Transaction.amount).sum

/-- The ledger invariant of the spec, for one user: the running total equals
the sum of the counted transaction amounts. -/
def UserOk (u : User) : Prop := u.totalSpent = spentSum u.transactions

/-- The ledger invariant over a whole users map. -/
def InvUsers (us : List (String × User)) : Prop := ∀ p ∈ us, UserOk p.2

/-- The parsed body of a verify-payment request, shared by all variants:
`razorpay_order_id`, `razorpay_payment_id`, `razorpay_signature`, `userId`,
`amount` (as parsed by parseFloat), `category`, `description`. -/
structure VReq where
  orderId : String
  paymentId : String
  signature : String
  userId : String
  amount : ℚ
  category : String
  description : String
deriving DecidableEq

/-- The parsed body of a create-order request (fields that do not reach the
ledger are omitted). -/
structure OReq where
  amount : ℚ
  userId : String
deriving DecidableEq

/-- A webhook `payment.entity` payload: the gateway payment id and order id,
the amount in minor units (paise), and the `notes` metadata fields, with the
empty string standing for absent notes entries. -/
structure Payment where
  id : String
  order_id : String
  amount : ℚ
  notesUserId : String
  notesCategory : String
  notesDescription : String
deriving DecidableEq

/-! ## PureApi: src/budget-tracker-pure-api.js -/

namespace PureApi

/-- The in-memory `budgetData` of budget-tracker-pure-api.js: users, the
global payments log (entries carry their userId), budgets (only the monthly
limit is modelled) and the analytics counters. -/
structure State where
  users : List (String × User)
  payments : List (String × Transaction)
  budgets : List (String × ℚ)
  analytics : Analytics
deriving DecidableEq

/-- The fresh in-memory state the server starts from. -/
def initState : State := ⟨[], [], [], ⟨0, 0, 0⟩⟩

/-- POST /api/verify-payment of budget-tracker-pure-api.js.  Returns the next
state and whether the response was the success response.  Rejections: missing
payment fields, missing userId, then signature mismatch.  On success the user
is fetched or freshly created, a status `success` transaction is appended, the
running total and the analytics counters grow by the amount, and the payment
is appended to the global log. -/
def verifyPayment (hmac : String → String → String) (secret : String)
    (s : State) (r : VReq) : State × Bool :=
  if r.orderId = "" ∨ r.paymentId = "" ∨ r.signature = "" then (s, false)
  else if r.userId = "" then (s, false)
  else if hmac secret (r.orderId ++ "|" ++ r.paymentId) ≠ r.signature then (s, false)
  else
    let user := (lookupKV s.users r.userId).getD ⟨0, []⟩
    let tx : Transaction :=
      { id := r.paymentId, orderId := r.orderId, amount := r.amount,
        category := jsOr r.category "Other",
        description := jsOr r.description "Payment", status := "success" }
    ({ users := setKV s.users r.userId
          ⟨user.totalSpent + r.amount, user.transactions ++ [tx]⟩,
       payments := s.payments ++ [(r.userId, tx)],
       budgets := s.budgets,
       analytics := ⟨s.analytics.totalUsers, s.analytics.totalTransactions + 1,
         s.analytics.totalAmount + r.amount⟩ }, true)

/-- POST /api/create-order of budget-tracker-pure-api.js, restricted to its
effect on the in-memory state: invalid amount or userId is rejected with no
effect; a missing user is auto-created with zero total, no transactions and
the default 10000 budget; the Razorpay order creation itself is external. -/
def createOrder (s : State) (r : OReq) : State :=
  if r.amount ≤ 0 then s
  else if r.userId = "" then s
  else if (lookupKV s.users r.userId).isSome then s
  else { s with users := setKV s.users r.userId ⟨0, []⟩,
                budgets := setKV s.budgets r.userId 10000 }

/-- POST /api/users of budget-tracker-pure-api.js: rejects a falsy userId,
409s on an existing user, else creates the user and budget and bumps the
totalUsers counter. -/
def createUser (s : State) (userId : String) (initialBudget : ℚ) : State :=
  if userId = "" then s
  else if (lookupKV s.users userId).isSome then s
  else { s with users := setKV s.users userId ⟨0, []⟩,
                budgets := setKV s.budgets userId initialBudget,
                analytics := ⟨s.analytics.totalUsers + 1,
                  s.analytics.totalTransactions, s.analytics.totalAmount⟩ }

/-- POST /api/webhook of budget-tracker-pure-api.js.  The secret defaults to
the placeholder string; signature verification runs ONLY when the effective
secret differs from the placeholder, i.e. an unconfigured secret skips
verification.  The handler never mutates the ledger; the Bool records whether
the request was accepted (200 received) rather than rejected (400). -/
def webhook (secretEnv : Option String) (hmac : String → String → String)
    (sigHeader : Option String) (body : String) (s : State) : State × Bool :=
  let secret := secretEnv.getD "your_webhook_secret"
  if secret ≠ "your_webhook_secret" then
    if sigHeader ≠ some (hmac secret body) then (s, false) else (s, true)
  else (s, true)

/-- One client-visible mutation request against this server. -/
inductive Op where
  | user (userId : String) (initialBudget : ℚ)
  | order (r : OReq)
  | verify (r : VReq)
  | hook (sigHeader : Option String) (body : String)
deriving DecidableEq

/-- Run one request against the state. -/
def step (hmac : String → String → String) (keySecret : String)
    (webhookSecret : Option String) (s : State) : Op → State
  | Op.user uid b => createUser s uid b
  | Op.order r => createOrder s r
  | Op.verify r => (verifyPayment hmac keySecret s r).1
  | Op.hook sig body => (webhook webhookSecret hmac sig body s).1

/-- Run a sequence of requests from a starting state. -/
def run (hmac : String → String → String) (keySecret : String)
    (webhookSecret : Option String) (s : State) (ops : List Op) : State :=
  ops.foldl (step hmac keySecret webhookSecret) s

end PureApi

/-! ## Part000: src/unnamed/part_000 (AI Budget Tracker API) -/

namespace Part000

/-- The in-memory `budgetData` of part_000: users, the global payments log,
budgets (monthly limit) and analytics counters. -/
structure State where
  users : List (String × User)
  payments : List (String × Transaction)
  budgets : List (String × ℚ)
  analytics : Analytics
deriving DecidableEq

/-- The fresh in-memory state the server starts from. -/
def initState : State := ⟨[], [], [], ⟨0, 0, 0⟩⟩

/-- Line 98 of part_000: `budget.monthly > 0 ?
((user.totalSpent / budget.monthly) * 100).toFixed(2) : 0`, then read back by
`parseFloat`. -/
def spendingPercentage (spent limit : ℚ) : ℚ :=
  if 0 < limit then round2 (spent / limit * 100) else 0

/-- Lines 107-130 of part_000: the risk-assessment classification of
`AIBudgetAnalyzer.analyzeBudget`, evaluated on the rounded percentage. -/
def statusOf (spent limit : ℚ) : String :=
  let p := spendingPercentage spent limit
  if 100 ≤ p then "over_budget"
  else if 90 ≤ p then "critical"
  else if 75 ≤ p then "warning"
  else if 50 ≤ p then "moderate"
  else "excellent"

/-- Lines 135-152 of part_000, `AIBudgetAnalyzer.getCategoryBreakdown`:
accumulate per-category amounts in first-seen order.  Mirrors the
`forEach` over the transactions. -/
def buildCategories (txs : List Transaction) : List (String × ℚ) :=
  txs.foldl
    (fun acc t =>
      let k := jsOr t.category "Other"
      match lookupKV acc k with
      | some v => setKV acc k (v + t.amount)
      | none => acc ++ [(k, t.amount)])
    []

/-- Stable descending insertion by amount, modelling
`Object.entries(categories).sort((a, b) => b - a)` (Array.prototype.sort is
stable). -/
def insertDesc (p : String × ℚ) : List (String × ℚ) → List (String × ℚ)
  | [] => [p]
  | q :: rest => if q.2 ≤ p.2 then p :: q :: rest else q :: insertDesc p rest

/-- Stable descending sort by amount. -/
def sortDesc : List (String × ℚ) → List (String × ℚ)
  | [] => []
  | p :: rest => insertDesc p (sortDesc rest)

/-- The category breakdown of part_000 (category, amount, percentage).  The
percentage field mirrors the source exactly: it is the rounded
`value / total * 100` ONLY when `categories.total` is truthy, i.e. when a
category literally named `total` exists with a nonzero accumulated amount;
otherwise it is the number 0. -/
def getCategoryBreakdown (txs : List Transaction) : List (String × ℚ × ℚ) :=
  let categories := buildCategories txs
  let total := (categories.map Prod.snd).sum
  let totalKeyTruthy : Bool :=
    match lookupKV categories "total" with
    | some v => decide (v ≠ 0)
    | none => false
  (sortDesc categories).map
    (fun p => (p.1, p.2, if totalKeyTruthy then round2 (p.2 / total * 100) else 0))

/-- POST /api/verify-payment of part_000 (lines 386-491).  One combined
falsy check over the four required fields, signature verification, then the
same recording as the pure-api variant. -/
def verifyPayment (hmac : String → String → String) (secret : String)
    (s : State) (r : VReq) : State × Bool :=
  if r.orderId = "" ∨ r.paymentId = "" ∨ r.signature = "" ∨ r.userId = "" then (s, false)
  else if hmac secret (r.orderId ++ "|" ++ r.paymentId) ≠ r.signature then (s, false)
  else
    let user := (lookupKV s.users r.userId).getD ⟨0, []⟩
    let tx : Transaction :=
      { id := r.paymentId, orderId := r.orderId, amount := r.amount,
        category := jsOr r.category "Other",
        description := jsOr r.description "Payment", status := "success" }
    ({ users := setKV s.users r.userId
          ⟨user.totalSpent + r.amount, user.transactions ++ [tx]⟩,
       payments := s.payments ++ [(r.userId, tx)],
       budgets := s.budgets,
       analytics := ⟨s.analytics.totalUsers, s.analytics.totalTransactions + 1,
         s.analytics.totalAmount + r.amount⟩ }, true)

/-- The transaction built by `handlePaymentCaptured` (lines 547-556): the
gateway amount is converted from paise, the status is `captured`. -/
def capturedTx (p : Payment) : Transaction :=
  { id := p.id, orderId := p.order_id, amount := p.amount / 100,
    category := jsOr p.notesCategory "Other",
    description := jsOr p.notesDescription "Webhook payment",
    status := "captured" }

/-- `handlePaymentCaptured` of part_000 (lines 536-564): no-op when the notes
carry no userId, when the user does not exist, or when a transaction with the
same id is already recorded for the user; otherwise append the captured
transaction, grow the running total and the global payments log. -/
def handlePaymentCaptured (s : State) (p : Payment) : State :=
  if p.notesUserId = "" then s
  else
    match lookupKV s.users p.notesUserId with
    | none => s
    | some user =>
        if user.transactions.any (fun t => t.id == p.id) then s
        else
          { s with
            users := setKV s.users p.notesUserId
              ⟨user.totalSpent + (capturedTx p).amount,
               user.transactions ++ [capturedTx p]⟩,
            payments := s.payments ++ [(p.notesUserId, capturedTx p)] }

/-- POST /api/webhook of part_000 (lines 494-534).  Verification always runs,
against the configured secret or, when unconfigured, against the placeholder
string `your_webhook_secret` used as the actual key.  A mismatching or absent
signature header is rejected (400) without mutation; `payment.captured`
dispatches to `handlePaymentCaptured`; `payment.failed`, `order.paid` and
unknown events only log. -/
def webhook (secretEnv : Option String) (hmac : String → String → String)
    (sigHeader : Option String) (body : String) (event : String)
    (payload : Payment) (s : State) : State × Bool :=
  let secret := secretEnv.getD "your_webhook_secret"
  if sigHeader ≠ some (hmac secret body) then (s, false)
  else if event = "payment.captured" then (handlePaymentCaptured s payload, true)
  else (s, true)

/-- POST /api/create-order of part_000 (lines 314-383), restricted to its
ledger effect: a missing user is auto-created with zero total and no
transactions (this variant creates no budget entry here). -/
def createOrder (s : State) (r : OReq) : State :=
  if r.amount ≤ 0 then s
  else if r.userId = "" then s
  else if (lookupKV s.users r.userId).isSome then s
  else { s with users := setKV s.users r.userId ⟨0, []⟩ }

/-- POST /api/users of part_000 (lines 247-290). -/
def createUser (s : State) (userId : String) (initialBudget : ℚ) : State :=
  if userId = "" then s
  else if (lookupKV s.users userId).isSome then s
  else { s with users := setKV s.users userId ⟨0, []⟩,
                budgets := setKV s.budgets userId initialBudget,
                analytics := ⟨s.analytics.totalUsers + 1,
                  s.analytics.totalTransactions, s.analytics.totalAmount⟩ }

/-- One client-visible mutation request against this server. -/
inductive Op where
  | user (userId : String) (initialBudget : ℚ)
  | order (r : OReq)
  | verify (r : VReq)
  | hook (sigHeader : Option String) (body : String) (event : String) (payload : Payment)
deriving DecidableEq

/-- Run one request against the state. -/
def step (hmac : String → String → String) (keySecret : String)
    (webhookSecret : Option String) (s : State) : Op → State
  | Op.user uid b => createUser s uid b
  | Op.order r => createOrder s r
  | Op.verify r => (verifyPayment hmac keySecret s r).1
  | Op.hook sig body ev pl => (webhook webhookSecret hmac sig body ev pl s).1

/-- Run a sequence of requests from a starting state. -/
def run (hmac : String → String → String) (keySecret : String)
    (webhookSecret : Option String) (s : State) (ops : List Op) : State :=
  ops.foldl (step hmac keySecret webhookSecret) s

end Part000

/-! ## Part002: src/unnamed/part_002 -/

namespace Part002

/-- The in-memory `budgetData` of part_002: users, the global payments log
(pushed WITHOUT a userId in this variant) and budgets. -/
structure State where
  users : List (String × User)
  payments : List Transaction
  budgets : List (String × ℚ)
deriving DecidableEq

/-- The fresh in-memory state the server starts from. -/
def initState : State := ⟨[], [], []⟩

/-- Line 71 of part_002: `((user.totalSpent / budget.monthly) * 100)
.toFixed(2)` — no guard on the sign of the limit in this variant. -/
def spendingPercentage (spent limit : ℚ) : ℚ := round2 (spent / limit * 100)

/-- Lines 77-90 of part_002: strict thresholds on the (string-coerced)
percentage, with statuses `critical`, `warning`, `moderate` and `good` and no
over-budget status. -/
def statusOf (spent limit : ℚ) : String :=
  let p := spendingPercentage spent limit
  if 90 < p then "critical"
  else if 75 < p then "warning"
  else if 50 < p then "moderate"
  else "good"

/-- POST /verify-payment of part_002 (lines 168-234): no field validation;
on signature match the user is fetched or created and the success transaction
recorded; on mismatch, 400 with no mutation. -/
def verifyPayment (hmac : String → String → String) (secret : String)
    (s : State) (r : VReq) : State × Bool :=
  if hmac secret (r.orderId ++ "|" ++ r.paymentId) = r.signature then
    let user := (lookupKV s.users r.userId).getD ⟨0, []⟩
    let tx : Transaction :=
      { id := r.paymentId, orderId := r.orderId, amount := r.amount,
        category := jsOr r.category "Other",
        description := jsOr r.description "Payment", status := "success" }
    ({ users := setKV s.users r.userId
          ⟨user.totalSpent + r.amount, user.transactions ++ [tx]⟩,
       payments := s.payments ++ [tx],
       budgets := s.budgets }, true)
  else (s, false)

/-- The `payment.captured` arm of the part_002 webhook (lines 254-273): the
userId defaults to `anonymous` when the notes carry none, the user is fetched
or created, and a `captured` transaction with the paise amount divided by 100
is appended (no duplicate check, no global payments push in this variant). -/
def webhookCapture (s : State) (p : Payment) : State :=
  let uid := jsOr p.notesUserId "anonymous"
  let user := (lookupKV s.users uid).getD ⟨0, []⟩
  let amt := p.amount / 100
  let tx : Transaction :=
    { id := p.id, orderId := "", amount := amt,
      category := jsOr p.notesCategory "Other",
      description := jsOr p.notesDescription "Webhook payment",
      status := "captured" }
  let user' : User := ⟨user.totalSpent + amt, user.transactions ++ [tx]⟩
  { s with users := setKV s.users uid user' }

/-- POST /webhook of part_002 (lines 237-286): the secret is the hardcoded
placeholder; on signature match, `payment.captured` mutates and other events
only log; on mismatch NOTHING happens but the response is still 200 OK
(the Bool is the constant acceptance this endpoint always answers with). -/
def webhook (hmac : String → String → String) (sigHeader : Option String)
    (body : String) (event : String) (payload : Payment) (s : State) :
    State × Bool :=
  if sigHeader = some (hmac "your_webhook_secret" body) then
    if event = "payment.captured" then (webhookCapture s payload, true)
    else (s, true)
  else (s, true)

end Part002

/-! ## Render: src/razorpay-render-deploy/server.js -/

namespace Render

/-- The in-memory `budgetData` of the render-deploy server: users, payments
log and analytics (no budgets map in this variant). -/
structure State where
  users : List (String × User)
  payments : List (String × Transaction)
  analytics : Analytics
deriving DecidableEq

/-- The fresh in-memory state the server starts from. -/
def initState : State := ⟨[], [], ⟨0, 0, 0⟩⟩

/-- POST /api/create-order of the render-deploy server (lines 147-196),
restricted to its ledger effect: reject only a falsy amount or userId, then
auto-create a missing user with zero total and no transactions. -/
def createOrder (s : State) (r : OReq) : State :=
  if r.amount = 0 ∨ r.userId = "" then s
  else if (lookupKV s.users r.userId).isSome then s
  else { s with users := setKV s.users r.userId ⟨0, []⟩ }

/-- POST /api/verify-payment of the render-deploy server (lines 199-268):
field validation, signature verification, and then — ONLY if the user already
exists — the recording of the transaction; with an unknown user nothing is
stored, yet the response is still the 200 success response carrying a
transaction object. -/
def verifyPayment (hmac : String → String → String) (secret : String)
    (s : State) (r : VReq) : State × Bool :=
  if r.orderId = "" ∨ r.paymentId = "" ∨ r.signature = "" ∨ r.userId = "" then (s, false)
  else if hmac secret (r.orderId ++ "|" ++ r.paymentId) ≠ r.signature then (s, false)
  else
    match lookupKV s.users r.userId with
    | none => (s, true)
    | some user =>
        let tx : Transaction :=
          { id := r.paymentId, orderId := r.orderId, amount := r.amount,
            category := jsOr r.category "Payment",
            description := jsOr r.description "Payment", status := "success" }
        ({ users := setKV s.users r.userId
              ⟨user.totalSpent + r.amount, user.transactions ++ [tx]⟩,
           payments := s.payments ++ [(r.userId, tx)],
           analytics := ⟨s.analytics.totalUsers, s.analytics.totalTransactions + 1,
             s.analytics.totalAmount + r.amount⟩ }, true)

end Render

/-! ## Definitions taken from the spec wording (for refinement comparisons),
and concrete helpers for witnesses -/

/-- Modelled from the spec wording of the classification (C6): first-match
thresholds on the spending percentage P: P ≥ 100 over_budget, P ≥ 90
critical, P ≥ 75 warning, P ≥ 50 moderate, else excellent. -/
def specStatusOf (p : ℚ) : String :=
  if 100 ≤ p then "over_budget"
  else if 90 ≤ p then "critical"
  else if 75 ≤ p then "warning"
  else if 50 ≤ p then "moderate"
  else "excellent"

/-- A concrete stand-in for the keyed hash, used only to instantiate
witnesses and counterexamples: the handlers treat the hash as an opaque
function and compare its output for equality. -/
def constHash : String → String → String := fun _ _ => "sighex"

/-- A concrete verify-payment request used by witnesses and counterexamples:
its signature field matches what `constHash` yields for any input. -/
def sampleVReq : VReq := ⟨"order_a", "pay_a", "sighex", "u1", 500, "", ""⟩

/-- A concrete webhook `payment.entity` used by witnesses: 50000 paise with
the user u1 in the notes. -/
def samplePayment : Payment := ⟨"pay_a", "order_a", 50000, "u1", "Food", "lunch"⟩

/-- A verify-payment request whose signature field does not match what
`constHash` yields, standing for an attacker-supplied signature. -/
def mismatchVReq : VReq := ⟨"order_a", "pay_a", "attacker", "u1", 500, "", ""⟩

/-- A concrete existing user record used by frame witnesses. -/
def sampleUser : User :=
  ⟨500, [⟨"pay_0", "order_0", 500, "Food", "groceries", "success"⟩]⟩

/-- A pure-api state holding the one existing user u2. -/
def samplePureState : PureApi.State := ⟨[("u2", sampleUser)], [], [], ⟨1, 1, 500⟩⟩

/-- A render-deploy state holding the one existing user u2. -/
def sampleRenderState : Render.State := ⟨[("u2", sampleUser)], [], ⟨1, 1, 500⟩⟩

/-- A concrete create-order request for the (missing) user u1. -/
def sampleOReq : OReq := ⟨250, "u1"⟩

/-- A part_000 state holding the user u1 with an empty ledger. -/
def part000StateWithU1 : Part000.State := ⟨[("u1", ⟨0, []⟩)], [], [], ⟨1, 0, 0⟩⟩

/-- A part_000 state in which u1 already holds a transaction with the id
pay_a (the id `samplePayment` carries). -/
def part000StateDup : Part000.State :=
  ⟨[("u1", ⟨500, [⟨"pay_a", "order_a", 500, "Food", "groceries", "success"⟩]⟩)],
   [], [], ⟨1, 1, 500⟩⟩

/-! ## Supporting lemmas -/

theorem mem_setKV {α : Type} (us : List (String × α)) (k : String) (v : α) :
    ∀ p ∈ setKV us k v, p = (k, v) ∨ p ∈ us := by
  induction us with
  | nil =>
      intro p hp
      simp [setKV] at hp
      exact Or.inl hp
  | cons hd tl ih =>
      obtain ⟨k', v'⟩ := hd
      intro p hp
      by_cases h : k' = k
      · simp [setKV, h] at hp
        rcases hp with hp | hp
        · exact Or.inl hp
        · exact Or.inr (List.mem_cons_of_mem _ hp)
      · simp [setKV, h] at hp
        rcases hp with hp | hp
        · exact Or.inr (by simp [hp])
        · rcases ih p hp with h1 | h1
          · exact Or.inl h1
          · exact Or.inr (List.mem_cons_of_mem _ h1)

theorem lookupKV_setKV_self {α : Type} (us : List (String × α)) (k : String) (v : α) :
    lookupKV (setKV us k v) k = some v := by
  induction us with
  | nil => simp [setKV, lookupKV]
  | cons hd tl ih =>
      obtain ⟨k', v'⟩ := hd
      by_cases h : k' = k
      · simp [setKV, h, lookupKV]
      · simp [setKV, h, lookupKV, ih]

theorem lookupKV_setKV_ne {α : Type} (us : List (String × α)) (k k' : String) (v : α)
    (h : k' ≠ k) : lookupKV (setKV us k v) k' = lookupKV us k' := by
  have h' : ¬k = k' := fun hk => h hk.symm
  induction us with
  | nil => simp [setKV, lookupKV, h']
  | cons hd tl ih =>
      obtain ⟨k₀, v₀⟩ := hd
      by_cases h0 : k₀ = k
      · subst h0
        have h1 : ¬k₀ = k' := fun hk => h (hk.symm)
        simp [setKV, lookupKV, h1]
      · by_cases h1 : k₀ = k'
        · subst h1
          simp [setKV, h0, lookupKV]
        · simp [setKV, h0, lookupKV, h1, ih]

theorem lookupKV_mem {α : Type} (us : List (String × α)) (k : String) (v : α)
    (h : lookupKV us k = some v) : (k, v) ∈ us := by
  induction us with
  | nil => simp [lookupKV] at h
  | cons hd tl ih =>
      obtain ⟨k', v'⟩ := hd
      by_cases h0 : k' = k
      · subst h0
        simp [lookupKV] at h
        simp [h]
      · simp [lookupKV, h0] at h
        exact List.mem_cons_of_mem _ (ih h)

theorem rat_floor_eq_int_floor (q : ℚ) : q.floor = Int.floor q := by
  rw [Rat.floor_def', Rat.floor_def]

/-- Rounding to two decimals moves a value by at most 1/200. -/
theorem round2_sub_abs_le (q : ℚ) : |round2 q - q| ≤ 1 / 200 := by
  have h1 : (Int.floor (q * 100 + 1 / 2) : ℚ) ≤ q * 100 + 1 / 2 := Int.floor_le _
  have h2 : q * 100 + 1 / 2 < (Int.floor (q * 100 + 1 / 2) : ℚ) + 1 :=
    Int.lt_floor_add_one _
  have hval : round2 q - q = ((Int.floor (q * 100 + 1 / 2) : ℚ) - q * 100) / 100 := by
    unfold round2
    rw [rat_floor_eq_int_floor]
    ring
  rw [abs_le, hval]
  constructor <;> nlinarith

theorem spentSum_append_counted (l : List Transaction) (t : Transaction)
    (h : countsTowardTotal t = true) :
    spentSum (l ++ [t]) = spentSum l + t.amount := by
  simp [spentSum, List.filter_append, List.filter_cons, h]

theorem invUsers_setKV {us : List (String × User)} {k : String} {u : User}
    (h : InvUsers us) (hu : UserOk u) : InvUsers (setKV us k u) := by
  intro p hp
  rcases mem_setKV us k u p hp with h1 | h1
  · rw [h1]; exact hu
  · exact h p h1

theorem invUsers_lookup {us : List (String × User)} {k : String} {u : User}
    (h : InvUsers us) (hl : lookupKV us k = some u) : UserOk u :=
  h (k, u) (lookupKV_mem us k u hl)

theorem userOk_getD {us : List (String × User)} {k : String}
    (h : InvUsers us) : UserOk ((lookupKV us k).getD ⟨0, []⟩) := by
  cases hl : lookupKV us k with
  | none =>
      simp [Option.getD]
      constructor
  | some u =>
      simp [Option.getD]
      exact invUsers_lookup h hl

theorem userOk_record {u : User} (h : UserOk u) (t : Transaction) (a : ℚ)
    (ha : t.amount = a) (hs : countsTowardTotal t = true) :
    UserOk ⟨u.totalSpent + a, u.transactions ++ [t]⟩ := by
  unfold UserOk at *
  simp only [spentSum_append_counted _ _ hs, h, ha]

theorem round2_eq (q : ℚ) (n : ℤ) (h1 : (n : ℚ) ≤ q * 100 + 1 / 2)
    (h2 : q * 100 + 1 / 2 < n + 1) : round2 q = (n : ℚ) / 100 := by
  rw [round2, rat_floor_eq_int_floor]
  congr 1
  exact_mod_cast Int.floor_eq_iff.mpr ⟨h1, h2⟩

/-! ## Claim C6: classification thresholds -/

/-- C6 counterexample.  The claim says a user with spent=900 and limit=1000
is classified `critical`; the part_002 analyzer (one of the cited sources)
classifies exactly 90 percent as `warning`, because its thresholds are
strict comparisons. -/
theorem c6_counterexample :
    Part002.statusOf 900 1000 = "warning" ∧ Part002.statusOf 900 1000 ≠ "critical" := by
  have h : Part002.spendingPercentage 900 1000 = 90 := by
    rw [Part002.spendingPercentage,
      show ((900 : ℚ) / 1000 * 100) = 90 by norm_num,
      round2_eq 90 9000 (by norm_num) (by norm_num)]
    norm_num
  have hs : Part002.statusOf 900 1000 = "warning" := by
    simp only [Part002.statusOf, h]
    norm_num
  exact ⟨hs, by rw [hs]; intro hc; exact absurd hc (by decide)⟩

/-- C6 amended: in the part_000 analyzer the classification follows the
claimed first-match thresholds on the percentage as the code computes it
(rounded to two decimals); in particular the four claimed boundary examples
hold there, and whenever the rounding is exact the classification agrees
with the spec-side classifier on P = 100*spent/limit.  (The part_002
analyzer instead uses strict thresholds with statuses critical, warning,
moderate, good — see the counterexample.) -/
theorem c6_theorem :
    Part000.statusOf 899 1000 = "warning" ∧
    Part000.statusOf 900 1000 = "critical" ∧
    Part000.statusOf 1000 1000 = "over_budget" ∧
    Part000.statusOf 0 1000 = "excellent" ∧
    (∀ spent limit : ℚ, 0 < limit →
      round2 (spent / limit * 100) = spent / limit * 100 →
      Part000.statusOf spent limit = specStatusOf (100 * spent / limit)) := by
  refine ⟨?_, ?_, ?_, ?_, ?_⟩
  · have h : Part000.spendingPercentage 899 1000 = 899 / 10 := by
      rw [Part000.spendingPercentage, if_pos (by norm_num : (0:ℚ) < 1000),
        show ((899 : ℚ) / 1000 * 100) = 899 / 10 by norm_num,
        round2_eq (899 / 10) 8990 (by norm_num) (by norm_num)]
      norm_num
    simp only [Part000.statusOf, h]
    norm_num
  · have h : Part000.spendingPercentage 900 1000 = 90 := by
      rw [Part000.spendingPercentage, if_pos (by norm_num : (0:ℚ) < 1000),
        show ((900 : ℚ) / 1000 * 100) = 90 by norm_num,
        round2_eq 90 9000 (by norm_num) (by norm_num)]
      norm_num
    simp only [Part000.statusOf, h]
    norm_num
  · have h : Part000.spendingPercentage 1000 1000 = 100 := by
      rw [Part000.spendingPercentage, if_pos (by norm_num : (0:ℚ) < 1000),
        show ((1000 : ℚ) / 1000 * 100) = 100 by norm_num,
        round2_eq 100 10000 (by norm_num) (by norm_num)]
      norm_num
    simp only [Part000.statusOf, h]
    norm_num
  · have h : Part000.spendingPercentage 0 1000 = 0 := by
      rw [Part000.spendingPercentage, if_pos (by norm_num : (0:ℚ) < 1000),
        show ((0 : ℚ) / 1000 * 100) = 0 by norm_num,
        round2_eq 0 0 (by norm_num) (by norm_num)]
      norm_num
    simp only [Part000.statusOf, h]
    norm_num
  · intro spent limit hl hr
    have e : spent / limit * 100 = 100 * spent / limit := by ring
    simp only [Part000.statusOf, Part000.spendingPercentage, if_pos hl]
    rw [hr, e]
    simp only [specStatusOf]

/-- C6 witness: the general clause of the amended theorem applied at
spent=450, limit=1000 (an exactly representable 45 percent). -/
theorem c6_witness :
    Part000.statusOf 450 1000 = specStatusOf (100 * 450 / 1000) :=
  c6_theorem.2.2.2.2 450 1000 (by norm_num)
    (by
      rw [show ((450 : ℚ) / 1000 * 100) = 45 by norm_num,
        round2_eq 45 4500 (by norm_num) (by norm_num)]
      norm_num)

/-! ## Claim C7: category breakdown percentages -/

/-- C7: the claim (and the spec) say each category maps to its percentage of
the total of all listed amounts, summing to 100; the code of part_000 guards
the percentage computation on the truthiness of `categories.total`, i.e. on
the existence of a category literally named `total`, so for ordinary data
every percentage is the number 0.  Here: a single Food transaction of 100
yields percentage 0 where the claim requires 100. -/
theorem c7_theorem :
    Part000.getCategoryBreakdown [⟨"p1", "o1", 100, "Food", "lunch", "success"⟩]
      = [("Food", 100, 0)] ∧ ((0 : ℚ) ≠ 100) := by
  constructor
  · simp [Part000.getCategoryBreakdown, Part000.buildCategories, Part000.sortDesc,
      Part000.insertDesc, jsOr, lookupKV, setKV]
  · norm_num

/-! ## Claim C8: spending percentage guard -/

/-- C8 counterexample.  The claim says the analyzer yields percentage 0
whenever the limit is non-positive; the part_002 analyzer (a cited source)
has no such guard and divides by the configured limit, so spent=100 with
limit=-5 yields -2000, not 0. -/
theorem c8_counterexample :
    Part002.spendingPercentage 100 (-5) = -2000 ∧ ((-5 : ℚ) ≤ 0) ∧
      ((-2000 : ℚ) ≠ 0) := by
  refine ⟨?_, by norm_num, by norm_num⟩
  rw [Part002.spendingPercentage,
    show ((100 : ℚ) / (-5) * 100) = -2000 by norm_num,
    round2_eq (-2000) (-200000) (by norm_num) (by norm_num)]
  norm_num

/-- C8 amended: in the part_000 analyzer the guard exists: a non-positive
limit yields percentage 0, and a positive limit yields the two-decimal
rounding of 100*spent/limit (within 1/200 of the exact value, the code never
dividing by a non-positive limit there).  The part_002 analyzer divides
unconditionally — see the counterexample. -/
theorem c8_theorem :
    (∀ spent limit : ℚ, limit ≤ 0 → Part000.spendingPercentage spent limit = 0) ∧
    (∀ spent limit : ℚ, 0 < limit →
      |Part000.spendingPercentage spent limit - 100 * spent / limit| ≤ 1 / 200) := by
  constructor
  · intro spent limit h
    rw [Part000.spendingPercentage, if_neg (not_lt.mpr h)]
  · intro spent limit h
    rw [Part000.spendingPercentage, if_pos h,
      show 100 * spent / limit = spent / limit * 100 from by ring]
    exact round2_sub_abs_le _

/-- C8 witness: both clauses of the amended theorem at concrete inputs. -/
theorem c8_witness :
    Part000.spendingPercentage 7 (-1) = 0 ∧
      |Part000.spendingPercentage 1 4 - 100 * 1 / 4| ≤ 1 / 200 :=
  ⟨c8_theorem.1 7 (-1) (by norm_num), c8_theorem.2 1 4 (by norm_num)⟩

/-! ## Claim C3: signature mismatch on verify-payment leaves the ledger
unchanged -/

/-- C3: for every request whose signature differs from the keyed hash of
orderId|paymentId under the key secret, the verify-payment handlers of
budget-tracker-pure-api.js and part_002 answer with the error response and
return the state exactly as it was. -/
theorem c3_theorem :
    ∀ (hmac : String → String → String) (secret : String)
      (s1 : PureApi.State) (s2 : Part002.State) (r : VReq),
      r.signature ≠ hmac secret (r.orderId ++ "|" ++ r.paymentId) →
      PureApi.verifyPayment hmac secret s1 r = (s1, false) ∧
      Part002.verifyPayment hmac secret s2 r = (s2, false) := by
  intro hmac secret s1 s2 r h
  constructor
  · rw [PureApi.verifyPayment]
    split_ifs with h1 h2 h3
    · rfl
    · rfl
    · rfl
    · exact absurd (not_ne_iff.mp h3).symm h
  · rw [Part002.verifyPayment, if_neg (fun he => h he.symm)]

/-- C3 witness: the theorem at a concrete mismatching request against the
fresh states of the two servers. -/
theorem c3_witness :
    PureApi.verifyPayment constHash "s3cret" PureApi.initState mismatchVReq
      = (PureApi.initState, false) ∧
    Part002.verifyPayment constHash "s3cret" Part002.initState mismatchVReq
      = (Part002.initState, false) :=
  c3_theorem constHash "s3cret" PureApi.initState Part002.initState mismatchVReq
    (by decide)

/-! ## Claim C9: create-order performs no ledger mutation beyond user
auto-creation -/

theorem lookup_setKV_fresh_forward {us : List (String × User)} {k0 : String}
    (h0 : lookupKV us k0 = none) (k : String) (u : User)
    (h : lookupKV us k = some u) : lookupKV (setKV us k0 ⟨0, []⟩) k = some u := by
  have hk : k ≠ k0 := by
    intro e
    rw [e, h0] at h
    exact Option.noConfusion h
  rw [lookupKV_setKV_ne us k0 k _ hk]
  exact h

theorem lookup_setKV_fresh_backward {us : List (String × User)} {k0 : String}
    (k : String) (u : User)
    (h : lookupKV (setKV us k0 ⟨0, []⟩) k = some u) :
    lookupKV us k = some u ∨ (u.totalSpent = 0 ∧ u.transactions = []) := by
  by_cases hk : k = k0
  · subst hk
    rw [lookupKV_setKV_self] at h
    injection h with h
    right
    rw [← h]
    exact ⟨rfl, rfl⟩
  · rw [lookupKV_setKV_ne us k0 k _ hk] at h
    exact Or.inl h

theorem pureApi_createOrder_users (s : PureApi.State) (r : OReq) :
    (PureApi.createOrder s r).users = s.users ∨
    (lookupKV s.users r.userId = none ∧
      (PureApi.createOrder s r).users = setKV s.users r.userId ⟨0, []⟩) := by
  rw [PureApi.createOrder]
  split_ifs with h1 h2 h3
  · exact Or.inl rfl
  · exact Or.inl rfl
  · exact Or.inl rfl
  · exact Or.inr ⟨Option.not_isSome_iff_eq_none.mp h3, rfl⟩

theorem pureApi_createOrder_frame (s : PureApi.State) (r : OReq) :
    (PureApi.createOrder s r).payments = s.payments ∧
    (PureApi.createOrder s r).analytics = s.analytics := by
  rw [PureApi.createOrder]
  split_ifs <;> exact ⟨rfl, rfl⟩

theorem render_createOrder_users (s : Render.State) (r : OReq) :
    (Render.createOrder s r).users = s.users ∨
    (lookupKV s.users r.userId = none ∧
      (Render.createOrder s r).users = setKV s.users r.userId ⟨0, []⟩) := by
  rw [Render.createOrder]
  split_ifs with h1 h2
  · exact Or.inl rfl
  · exact Or.inl rfl
  · exact Or.inr ⟨Option.not_isSome_iff_eq_none.mp h2, rfl⟩

theorem render_createOrder_frame (s : Render.State) (r : OReq) :
    (Render.createOrder s r).payments = s.payments ∧
    (Render.createOrder s r).analytics = s.analytics := by
  rw [Render.createOrder]
  split_ifs <;> exact ⟨rfl, rfl⟩

/-- C9: every create-order request (valid, invalid, or auto-creating a
missing user) appends no transaction: every user present before keeps
exactly its record, every user present after was either already there or is
the fresh zero user, and the payments log and analytics counters are
untouched — in both budget-tracker-pure-api.js and the render-deploy server. -/
theorem c9_theorem :
    ∀ (s1 : PureApi.State) (s2 : Render.State) (r : OReq),
      ((∀ k u, lookupKV s1.users k = some u →
          lookupKV (PureApi.createOrder s1 r).users k = some u) ∧
       (∀ k u, lookupKV (PureApi.createOrder s1 r).users k = some u →
          lookupKV s1.users k = some u ∨ (u.totalSpent = 0 ∧ u.transactions = [])) ∧
       (PureApi.createOrder s1 r).payments = s1.payments ∧
       (PureApi.createOrder s1 r).analytics = s1.analytics) ∧
      ((∀ k u, lookupKV s2.users k = some u →
          lookupKV (Render.createOrder s2 r).users k = some u) ∧
       (∀ k u, lookupKV (Render.createOrder s2 r).users k = some u →
          lookupKV s2.users k = some u ∨ (u.totalSpent = 0 ∧ u.transactions = [])) ∧
       (Render.createOrder s2 r).payments = s2.payments ∧
       (Render.createOrder s2 r).analytics = s2.analytics) := by
  intro s1 s2 r
  refine ⟨⟨?_, ?_, (pureApi_createOrder_frame s1 r).1, (pureApi_createOrder_frame s1 r).2⟩,
    ⟨?_, ?_, (render_createOrder_frame s2 r).1, (render_createOrder_frame s2 r).2⟩⟩
  · intro k u h
    rcases pureApi_createOrder_users s1 r with he | ⟨h0, he⟩
    · rw [he]; exact h
    · rw [he]; exact lookup_setKV_fresh_forward h0 k u h
  · intro k u h
    rcases pureApi_createOrder_users s1 r with he | ⟨h0, he⟩
    · rw [he] at h; exact Or.inl h
    · rw [he] at h; exact lookup_setKV_fresh_backward k u h
  · intro k u h
    rcases render_createOrder_users s2 r with he | ⟨h0, he⟩
    · rw [he]; exact h
    · rw [he]; exact lookup_setKV_fresh_forward h0 k u h
  · intro k u h
    rcases render_createOrder_users s2 r with he | ⟨h0, he⟩
    · rw [he] at h; exact Or.inl h
    · rw [he] at h; exact lookup_setKV_fresh_backward k u h

/-- C9 witness: the theorem at a concrete order request auto-creating u1
over states that already hold u2, whose record survives untouched. -/
theorem c9_witness :
    lookupKV (PureApi.createOrder samplePureState sampleOReq).users "u2"
      = some sampleUser ∧
    (PureApi.createOrder samplePureState sampleOReq).payments
      = samplePureState.payments ∧
    lookupKV (Render.createOrder sampleRenderState sampleOReq).users "u2"
      = some sampleUser ∧
    (Render.createOrder sampleRenderState sampleOReq).analytics
      = sampleRenderState.analytics :=
  ⟨(c9_theorem samplePureState sampleRenderState sampleOReq).1.1 "u2" sampleUser rfl,
   (c9_theorem samplePureState sampleRenderState sampleOReq).1.2.2.1,
   (c9_theorem samplePureState sampleRenderState sampleOReq).2.1 "u2" sampleUser rfl,
   (c9_theorem samplePureState sampleRenderState sampleOReq).2.2.2.2⟩

/-! ## Claim C10: render-deploy verify-payment with an unknown user -/

/-- C10: in the render-deploy server, a verify-payment request with all
fields present and a valid signature but a userId that is not in the users
map answers the 200 success response while the entire state — users,
payments log, analytics — is returned exactly unchanged. -/
theorem c10_theorem :
    ∀ (hmac : String → String → String) (secret : String) (s : Render.State)
      (r : VReq),
      ¬(r.orderId = "" ∨ r.paymentId = "" ∨ r.signature = "" ∨ r.userId = "") →
      r.signature = hmac secret (r.orderId ++ "|" ++ r.paymentId) →
      lookupKV s.users r.userId = none →
      Render.verifyPayment hmac secret s r = (s, true) := by
  intro hmac secret s r h1 h2 h3
  rw [Render.verifyPayment, if_neg h1, if_neg (not_ne_iff.mpr h2.symm)]
  simp only [h3]

/-- C10 witness: the theorem at the fresh render-deploy state (which does
not hold u1) and the signature-valid sample request. -/
theorem c10_witness :
    Render.verifyPayment constHash "s3cret" Render.initState sampleVReq
      = (Render.initState, true) :=
  c10_theorem constHash "s3cret" Render.initState sampleVReq (by decide) rfl rfl

/-! ## Claim C4: webhook verification does not fail closed -/

/-- C4 counterexample.  The claim says an absent signature header or an
absent webhook secret is treated as verification failure and rejected; in
budget-tracker-pure-api.js an unconfigured secret makes the handler skip
verification entirely, so a request with no signature header at all is
accepted (200 received), not rejected. -/
theorem c4_counterexample :
    PureApi.webhook none constHash none "rawbody" PureApi.initState
      = (PureApi.initState, true) := by
  rw [PureApi.webhook]
  simp

/-- C4 amended: a mismatching or absent signature header is rejected without
mutation wherever verification runs — always in part_000 (clause 1), and in
pure-api whenever a secret other than the placeholder is configured
(clause 2).  But an absent secret does not fail closed: pure-api skips
verification (see the counterexample), and part_000 then verifies against
the literal placeholder string, so a request signed with that known value is
accepted (clause 3); part_002 hardcodes the placeholder and even answers 200
on a mismatch, though without mutating (clause 4). -/
theorem c4_theorem :
    (∀ (hmac : String → String → String) (secretEnv : Option String)
       (sig : Option String) (body event : String) (pl : Payment)
       (s : Part000.State),
       sig ≠ some (hmac (secretEnv.getD "your_webhook_secret") body) →
       Part000.webhook secretEnv hmac sig body event pl s = (s, false)) ∧
    (∀ (hmac : String → String → String) (secret : String) (sig : Option String)
       (body : String) (s : PureApi.State),
       secret ≠ "your_webhook_secret" →
       sig ≠ some (hmac secret body) →
       PureApi.webhook (some secret) hmac sig body s = (s, false)) ∧
    (∀ (hmac : String → String → String) (body event : String) (pl : Payment)
       (s : Part000.State),
       (Part000.webhook none hmac (some (hmac "your_webhook_secret" body))
         body event pl s).2 = true) ∧
    (∀ (hmac : String → String → String) (sig : Option String)
       (body event : String) (pl : Payment) (s : Part002.State),
       sig ≠ some (hmac "your_webhook_secret" body) →
       Part002.webhook hmac sig body event pl s = (s, true)) := by
  refine ⟨?_, ?_, ?_, ?_⟩
  · intro hmac secretEnv sig body event pl s h
    rw [Part000.webhook]
    simp only [if_pos h]
  · intro hmac secret sig body s h1 h2
    rw [PureApi.webhook]
    simp only [Option.getD]
    rw [if_pos h1, if_pos h2]
  · intro hmac body event pl s
    rw [Part000.webhook]
    simp only [Option.getD]
    rw [if_neg (not_ne_iff.mpr rfl)]
    split_ifs <;> rfl
  · intro hmac sig body event pl s h
    rw [Part002.webhook, if_neg h]

/-- C4 witness: the provable clauses of the amended theorem at concrete
inputs — a configured secret with an absent header is rejected by part_000
and by pure-api, the placeholder-signed request is accepted by part_000 with
no secret configured, and part_002 leaves the state alone on a mismatch while
answering 200. -/
theorem c4_witness :
    Part000.webhook (some "real_secret") constHash none "rawbody"
        "payment.captured" samplePayment Part000.initState
      = (Part000.initState, false) ∧
    PureApi.webhook (some "real_secret") constHash none "rawbody"
        PureApi.initState = (PureApi.initState, false) ∧
    (Part000.webhook none constHash
        (some (constHash "your_webhook_secret" "rawbody")) "rawbody"
        "order.paid" samplePayment Part000.initState).2 = true ∧
    Part002.webhook constHash (some "attacker") "rawbody" "payment.captured"
        samplePayment Part002.initState = (Part002.initState, true) :=
  ⟨c4_theorem.1 constHash (some "real_secret") none "rawbody" "payment.captured"
      samplePayment Part000.initState (by decide),
   c4_theorem.2.1 constHash "real_secret" none "rawbody" PureApi.initState
      (by decide) (by decide),
   c4_theorem.2.2.1 constHash "rawbody" "order.paid" samplePayment Part000.initState,
   c4_theorem.2.2.2 constHash (some "attacker") "rawbody" "payment.captured"
      samplePayment Part002.initState (by decide)⟩

/-! ## Claim C5: handling of payment.captured webhook events -/

/-- C5 counterexample.  The claim says a signature-valid payment.captured
event whose metadata carries a userId gets a captured transaction recorded
for that user; in part_000 `handlePaymentCaptured` silently drops the event
when that user is not in the users map: on the fresh state the event for u1
changes nothing, and no transaction exists for u1 afterwards. -/
theorem c5_counterexample :
    Part000.handlePaymentCaptured Part000.initState samplePayment
        = Part000.initState ∧
    lookupKV Part000.initState.users samplePayment.notesUserId = none :=
  ⟨rfl, rfl⟩

/-- C5 amended: in part_000, a payment.captured event is a no-op when the
metadata carries no userId (clause 1), when the user does not exist
(clause 2) or when the id is already recorded, and otherwise appends exactly
one captured transaction with the minor-unit amount divided by 100, updating
the total in the same step (clause 3); non-captured events never mutate
(clause 4).  In part_002, an event without a userId is not a no-op: it is
recorded under the literal user `anonymous`, auto-created on demand
(clause 5). -/
theorem c5_theorem :
    (∀ (s : Part000.State) (p : Payment), p.notesUserId = "" →
      Part000.handlePaymentCaptured s p = s) ∧
    (∀ (s : Part000.State) (p : Payment),
      lookupKV s.users p.notesUserId = none →
      Part000.handlePaymentCaptured s p = s) ∧
    (∀ (s : Part000.State) (p : Payment) (user : User),
      p.notesUserId ≠ "" →
      lookupKV s.users p.notesUserId = some user →
      user.transactions.any (fun t => t.id == p.id) = false →
      Part000.handlePaymentCaptured s p =
        { s with
          users := setKV s.users p.notesUserId
            ⟨user.totalSpent + p.amount / 100,
             user.transactions ++ [Part000.capturedTx p]⟩,
          payments := s.payments ++ [(p.notesUserId, Part000.capturedTx p)] } ∧
      (Part000.capturedTx p).status = "captured" ∧
      (Part000.capturedTx p).amount = p.amount / 100) ∧
    (∀ (hmac : String → String → String) (secretEnv : Option String)
       (sig : Option String) (body event : String) (pl : Payment)
       (s : Part000.State), event ≠ "payment.captured" →
       (Part000.webhook secretEnv hmac sig body event pl s).1 = s) ∧
    (∀ (s : Part002.State) (p : Payment), p.notesUserId = "" →
      lookupKV (Part002.webhookCapture s p).users "anonymous" =
        some ⟨((lookupKV s.users "anonymous").getD ⟨0, []⟩).totalSpent
                + p.amount / 100,
              ((lookupKV s.users "anonymous").getD ⟨0, []⟩).transactions ++
                [⟨p.id, "", p.amount / 100, jsOr p.notesCategory "Other",
                  jsOr p.notesDescription "Webhook payment", "captured"⟩]⟩) := by
  refine ⟨?_, ?_, ?_, ?_, ?_⟩
  · intro s p h
    rw [Part000.handlePaymentCaptured, if_pos h]
  · intro s p h
    rw [Part000.handlePaymentCaptured]
    by_cases h1 : p.notesUserId = ""
    · rw [if_pos h1]
    · rw [if_neg h1]
      simp only [h]
  · intro s p user h1 h2 h3
    rw [Part000.handlePaymentCaptured, if_neg h1]
    simp only [h2, h3]
    exact ⟨rfl, rfl, rfl⟩
  · intro hmac secretEnv sig body event pl s hev
    rw [Part000.webhook]
    by_cases h1 : sig ≠ some (hmac (secretEnv.getD "your_webhook_secret") body)
    · rw [if_pos h1]
    · rw [if_neg h1, if_neg hev]
  · intro s p h
    rw [Part002.webhookCapture]
    simp only [h, jsOr, if_pos rfl]
    exact lookupKV_setKV_self _ _ _

/-- C5 witness: clause 3 of the amended theorem at the state holding u1 with
an empty ledger and the sample captured payment of 50000 paise. -/
theorem c5_witness :
    Part000.handlePaymentCaptured part000StateWithU1 samplePayment =
      { part000StateWithU1 with
        users := setKV part000StateWithU1.users samplePayment.notesUserId
          ⟨(0 : ℚ) + samplePayment.amount / 100,
           ([] : List Transaction) ++ [Part000.capturedTx samplePayment]⟩,
        payments := part000StateWithU1.payments ++
          [(samplePayment.notesUserId, Part000.capturedTx samplePayment)] } ∧
    (Part000.capturedTx samplePayment).status = "captured" ∧
    (Part000.capturedTx samplePayment).amount = samplePayment.amount / 100 :=
  c5_theorem.2.2.1 part000StateWithU1 samplePayment ⟨0, []⟩ (by decide) rfl rfl

/-! ## Claim C1: idempotent replay of a payment id -/

/-- C1 counterexample.  The claim says submitting the same payment id twice
(through verify-payment and/or the webhook capture handler) changes
totalSpent and the ledger length only once; the verify-payment handler of
budget-tracker-pure-api.js has no duplicate check, so replaying the same
signature-valid request doubles both: after one call u1 holds (500, 1),
after the replay (1000, 2). -/
theorem c1_counterexample :
    (lookupKV (PureApi.verifyPayment constHash "s3cret" PureApi.initState
        sampleVReq).1.users "u1").map
        (fun u => (u.totalSpent, u.transactions.length)) = some (500, 1) ∧
    (lookupKV (PureApi.verifyPayment constHash "s3cret"
        (PureApi.verifyPayment constHash "s3cret" PureApi.initState
          sampleVReq).1 sampleVReq).1.users "u1").map
        (fun u => (u.totalSpent, u.transactions.length)) = some (1000, 2) ∧
    ((1000 : ℚ), (2 : Nat)) ≠ ((500 : ℚ), (1 : Nat)) := by
  refine ⟨?_, ?_, by norm_num⟩
  · simp [PureApi.verifyPayment, PureApi.initState, constHash, sampleVReq,
      lookupKV, setKV, jsOr]
  · simp [PureApi.verifyPayment, PureApi.initState, constHash, sampleVReq,
      lookupKV, setKV, jsOr]
    norm_num

/-- C1 amended: the idempotency the claim describes holds only on the
webhook capture path: part_000's `handlePaymentCaptured` is idempotent —
re-delivering the same payment is a no-op (clause 1), and a payment whose id
is already among the user's transactions (recorded by any path) is dropped
(clause 2).  The verify-payment path has no duplicate check and double-counts
on replay — see the counterexample. -/
theorem c1_theorem :
    (∀ (s : Part000.State) (p : Payment),
      Part000.handlePaymentCaptured (Part000.handlePaymentCaptured s p) p =
        Part000.handlePaymentCaptured s p) ∧
    (∀ (s : Part000.State) (p : Payment) (user : User),
      lookupKV s.users p.notesUserId = some user →
      user.transactions.any (fun t => t.id == p.id) = true →
      Part000.handlePaymentCaptured s p = s) := by
  constructor
  · intro s p
    by_cases h0 : p.notesUserId = ""
    · have e : Part000.handlePaymentCaptured s p = s := by
        rw [Part000.handlePaymentCaptured, if_pos h0]
      rw [e]
      exact e
    · cases hl : lookupKV s.users p.notesUserId with
      | none =>
          have e : Part000.handlePaymentCaptured s p = s := by
            rw [Part000.handlePaymentCaptured, if_neg h0]
            simp only [hl]
          rw [e]
          exact e
      | some user =>
          by_cases h2 : user.transactions.any (fun t => t.id == p.id) = true
          · have e : Part000.handlePaymentCaptured s p = s := by
              rw [Part000.handlePaymentCaptured, if_neg h0]
              simp only [hl]
              rw [if_pos h2]
            rw [e]
            exact e
          · have e : Part000.handlePaymentCaptured s p =
                { s with
                  users := setKV s.users p.notesUserId
                    ⟨user.totalSpent + (Part000.capturedTx p).amount,
                     user.transactions ++ [Part000.capturedTx p]⟩,
                  payments := s.payments ++
                    [(p.notesUserId, Part000.capturedTx p)] } := by
              rw [Part000.handlePaymentCaptured, if_neg h0]
              simp only [hl]
              rw [if_neg h2]
            rw [e]
            rw [Part000.handlePaymentCaptured, if_neg h0]
            simp only [lookupKV_setKV_self]
            have hany : (user.transactions ++ [Part000.capturedTx p]).any
                (fun t => t.id == p.id) = true := by
              simp [List.any_append, Part000.capturedTx]
            rw [if_pos hany]
  · intro s p user h1 h2
    rw [Part000.handlePaymentCaptured]
    by_cases h0 : p.notesUserId = ""
    · rw [if_pos h0]
    · rw [if_neg h0]
      simp only [h1]
      rw [if_pos h2]

/-- C1 witness: clause 2 of the amended theorem at a state in which u1
already holds a transaction with the id pay_a: the captured webhook delivery
of the same id changes nothing. -/
theorem c1_witness :
    Part000.handlePaymentCaptured part000StateDup samplePayment
      = part000StateDup :=
  c1_theorem.2 part000StateDup samplePayment
    ⟨500, [⟨"pay_a", "order_a", 500, "Food", "groceries", "success"⟩]⟩ rfl rfl

/-! ## Claim C2: totalSpent equals the sum of counted transaction amounts -/

theorem part000_captured_inv (s : Part000.State) (p : Payment)
    (h : InvUsers s.users) :
    InvUsers (Part000.handlePaymentCaptured s p).users := by
  rw [Part000.handlePaymentCaptured]
  by_cases h0 : p.notesUserId = ""
  · rw [if_pos h0]; exact h
  · rw [if_neg h0]
    cases hl : lookupKV s.users p.notesUserId with
    | none => exact h
    | some user =>
        dsimp only
        by_cases h2 : user.transactions.any (fun t => t.id == p.id) = true
        · rw [if_pos h2]; exact h
        · rw [if_neg h2]
          exact invUsers_setKV h
            (userOk_record (invUsers_lookup h hl) (Part000.capturedTx p)
              (Part000.capturedTx p).amount rfl rfl)

theorem part000_verify_inv (hmac : String → String → String) (ks : String)
    (s : Part000.State) (r : VReq) (h : InvUsers s.users) :
    InvUsers (Part000.verifyPayment hmac ks s r).1.users := by
  rw [Part000.verifyPayment]
  split_ifs with h1 h2
  · exact h
  · exact h
  · exact invUsers_setKV h (userOk_record (userOk_getD h) _ r.amount rfl rfl)

theorem part000_step_inv (hmac : String → String → String) (ks : String)
    (ws : Option String) (s : Part000.State) (op : Part000.Op)
    (h : InvUsers s.users) :
    InvUsers (Part000.step hmac ks ws s op).users := by
  cases op with
  | user uid b =>
      rw [Part000.step, Part000.createUser]
      split_ifs
      · exact h
      · exact h
      · exact invUsers_setKV h rfl
  | order r =>
      rw [Part000.step, Part000.createOrder]
      split_ifs
      · exact h
      · exact h
      · exact h
      · exact invUsers_setKV h rfl
  | verify r => exact part000_verify_inv hmac ks s r h
  | hook sig body ev pl =>
      rw [Part000.step, Part000.webhook]
      split_ifs
      · exact h
      · exact part000_captured_inv s pl h
      · exact h

theorem part000_run_inv (hmac : String → String → String) (ks : String)
    (ws : Option String) :
    ∀ (ops : List Part000.Op) (s : Part000.State), InvUsers s.users →
      InvUsers (Part000.run hmac ks ws s ops).users := by
  intro ops
  induction ops with
  | nil => intro s h; exact h
  | cons op rest ih =>
      intro s h
      exact ih (Part000.step hmac ks ws s op) (part000_step_inv hmac ks ws s op h)

theorem pureApi_verify_inv (hmac : String → String → String) (ks : String)
    (s : PureApi.State) (r : VReq) (h : InvUsers s.users) :
    InvUsers (PureApi.verifyPayment hmac ks s r).1.users := by
  rw [PureApi.verifyPayment]
  split_ifs with h1 h2 h3
  · exact h
  · exact h
  · exact h
  · exact invUsers_setKV h (userOk_record (userOk_getD h) _ r.amount rfl rfl)

theorem pureApi_step_inv (hmac : String → String → String) (ks : String)
    (ws : Option String) (s : PureApi.State) (op : PureApi.Op)
    (h : InvUsers s.users) :
    InvUsers (PureApi.step hmac ks ws s op).users := by
  cases op with
  | user uid b =>
      rw [PureApi.step, PureApi.createUser]
      split_ifs
      · exact h
      · exact h
      · exact invUsers_setKV h rfl
  | order r =>
      rw [PureApi.step, PureApi.createOrder]
      split_ifs
      · exact h
      · exact h
      · exact h
      · exact invUsers_setKV h rfl
  | verify r => exact pureApi_verify_inv hmac ks s r h
  | hook sig body =>
      rw [PureApi.step, PureApi.webhook]
      split_ifs <;> exact h

theorem pureApi_run_inv (hmac : String → String → String) (ks : String)
    (ws : Option String) :
    ∀ (ops : List PureApi.Op) (s : PureApi.State), InvUsers s.users →
      InvUsers (PureApi.run hmac ks ws s ops).users := by
  intro ops
  induction ops with
  | nil => intro s h; exact h
  | cons op rest ih =>
      intro s h
      exact ih (PureApi.step hmac ks ws s op) (pureApi_step_inv hmac ks ws s op h)

/-- C2: after every sequence of requests (user creation, order creation,
verify-payment, webhook delivery) run from the fresh state, every user in
the ledger satisfies totalSpent = sum of the amounts of its transactions
with status success or captured — in part_000 (whose webhook captures
mutate) and in budget-tracker-pure-api.js (whose webhook never mutates);
every appending operation updates the total in the same step, which is what
makes the invariant go through each case. -/
theorem c2_theorem :
    ∀ (hmac : String → String → String) (keySecret : String)
      (webhookSecret : Option String) (ops0 : List Part000.Op)
      (opsP : List PureApi.Op),
      InvUsers (Part000.run hmac keySecret webhookSecret
        Part000.initState ops0).users ∧
      InvUsers (PureApi.run hmac keySecret webhookSecret
        PureApi.initState opsP).users := by
  intro hmac ks ws ops0 opsP
  constructor
  · exact part000_run_inv hmac ks ws ops0 Part000.initState
      (fun p hp => absurd hp (List.not_mem_nil p))
  · exact pureApi_run_inv hmac ks ws opsP PureApi.initState
      (fun p hp => absurd hp (List.not_mem_nil p))

/-- C2 witness: the theorem at a concrete run mixing user creation, a
signature-valid client verification and a signature-valid webhook capture of
a different payment. -/
theorem c2_witness :
    InvUsers (Part000.run constHash "s3cret" none Part000.initState
      [Part000.Op.user "u1" 1000, Part000.Op.verify sampleVReq,
       Part000.Op.hook (some "sighex") "rawbody" "payment.captured"
         samplePayment]).users ∧
    InvUsers (PureApi.run constHash "s3cret" none PureApi.initState
      [PureApi.Op.verify sampleVReq, PureApi.Op.order sampleOReq]).users :=
  c2_theorem constHash "s3cret" none
    [Part000.Op.user "u1" 1000, Part000.Op.verify sampleVReq,
     Part000.Op.hook (some "sighex") "rawbody" "payment.captured" samplePayment]
    [PureApi.Op.verify sampleVReq, PureApi.Op.order sampleOReq]
